import Mathlib

/-!
Shallow embedding of the coverage-area-finder application:
the Firecrawl-based coverage lookup service (`scrapeOpenFiberCoverage`
with its validation, cache, rate limiter and substring classification),
the map-data fetch (`fetchOSMData`), the address formatter, the
sequential enrichment driver (`checkFiberCoverageForResults`) and the
radio-range estimator (`calculateRadioCoverage`).

Strings are modelled through their character lists; JavaScript's
`includes`, `trim`, `toLowerCase` and the two regex replacements
(`\s+` and `[,\s]+` squashed to a single space) are embedded as
executable character-list functions.  Network I/O is modelled by an
oracle argument carrying the scraping backend's response, and wall-clock
time by an explicit `now` parameter; `Date.now()` after a `delay(ms)`
is idealised as advancing the clock by exactly `ms`.
-/

/-- JavaScript `pat` occurs at the head of the text (character lists). -/
def listMatchesAt : List Char → List Char → Bool
  | [], _ => true
  | _ :: _, [] => false
  | p :: ps, c :: cs => p == c && listMatchesAt ps cs

/-- JavaScript `text.includes(pat)` over character lists. -/
def listHasPat (pat : List Char) : List Char → Bool
  | [] => listMatchesAt pat []
  | c :: cs => listMatchesAt pat (c :: cs) || listHasPat pat cs

/-- JavaScript `s.includes(pat)`. -/
def strIncludes (s pat : String) : Bool :=
  listHasPat pat.data s.data

/-- JavaScript `s.toLowerCase()` (per-character lowering). -/
def strToLower (s : String) : String :=
  String.mk (s.data.map Char.toLower)

/-- Replace every maximal run of characters satisfying `p` by a single
space: the effect of JavaScript `replace(/X+/g, ' ')` for a character
class `X`.  The boolean argument records whether the previous character
belonged to a run. -/
def squashRuns (p : Char → Bool) : Bool → List Char → List Char
  | _, [] => []
  | prev, c :: cs =>
    if p c then
      if prev then squashRuns p true cs
      else ' ' :: squashRuns p true cs
    else c :: squashRuns p false cs

/-- Drop leading and trailing whitespace characters. -/
def trimChars (l : List Char) : List Char :=
  ((l.dropWhile Char.isWhitespace).reverse.dropWhile Char.isWhitespace).reverse

/-- JavaScript `s.trim()`. -/
def strTrim (s : String) : String :=
  String.mk (trimChars s.data)

/-- Character class `[,\s]` of the address-cleaning regex. -/
def commaOrWs (c : Char) : Bool :=
  c == ',' || c.isWhitespace

/-- The three-valued coverage enumeration `'FTTH' | 'FWA' | 'Non coperto'`. -/
inductive Coverage
  | FTTH
  | FWA
  | NonCoperto
deriving DecidableEq

/-- Substrings whose presence classifies the page as FTTH. -/
def ftthKeywords : List String :=
  ["ftth", "fiber to the home", "fibra fino a casa",
   "disponibile fibra", "copertura fibra ottica"]

/-- Substrings whose presence classifies the page as FWA. -/
def fwaKeywords : List String :=
  ["fwa", "fixed wireless access", "wireless fisso", "tecnologia wireless"]

/-- Substrings indicating the page explicitly reports no coverage. -/
def notCoveredKeywords : List String :=
  ["non coperto", "non disponibile", "not available", "area non raggiunta"]

/-- Does the text contain at least one of the given substrings? -/
def hasAnyKeyword (ks : List String) (s : String) : Bool :=
  ks.any (fun k => strIncludes s k)

/-- The coverage-analysis block of `scrapeOpenFiberCoverage`: starting
from the default `'Non coperto'`, check the FTTH group, then the FWA
group, then the explicit not-covered group. -/
def classifyCoverage (allContent : String) : Coverage :=
  if hasAnyKeyword ftthKeywords allContent then Coverage.FTTH
  else if hasAnyKeyword fwaKeywords allContent then Coverage.FWA
  else if hasAnyKeyword notCoveredKeywords allContent then Coverage.NonCoperto
  else Coverage.NonCoperto

/-- The combined lowercased text analysed for coverage indicators:
content, markdown and html lowered and joined with single spaces. -/
def combinedText (content markdown html : String) : String :=
  strToLower content ++ " " ++ strToLower markdown ++ " " ++ strToLower html

/-- The `cleanAddress` of `validateAddress`: `[,\s]+` runs replaced by
single spaces, then trimmed. -/
def cleanedAddress (address : String) : String :=
  strTrim (String.mk (squashRuns commaOrWs false address.data))

/-- `FirecrawlService.validateAddress`: length checks on the trimmed
address and city, then the `[,\s]+` cleaning, then the emptiness and
alphanumeric-content checks on the cleaned address. -/
def validateAddress (address city : String) : Bool :=
  if address = "" ∨ (strTrim address).length < 3 then false
  else if city = "" ∨ (strTrim city).length < 2 then false
  else if cleanedAddress address = "" ∨ cleanedAddress address = "," then false
  else if (cleanedAddress address).data.any (fun c => c.isAlphanum) = false then false
  else true

/-- The composite cache key `` `${address.trim()}_${city.trim()}` ``. -/
def mkCacheKey (address city : String) : String :=
  strTrim address ++ "_" ++ strTrim city

/-- The in-memory coverage cache, an association list modelling the
string-keyed `Map`. -/
def cacheLookup : List (String × Coverage) → String → Option Coverage
  | [], _ => none
  | (k, v) :: rest, key => if k = key then some v else cacheLookup rest key

/-- `REQUEST_DELAY`: the fixed minimum interval between scrape requests. -/
def REQUEST_DELAY : Nat := 2000

/-- Time the rate limiter sleeps before dispatching when the last
request was at `lastRequestTime` and the current clock reads `now`. -/
def rlWaitTime (lastRequestTime now : Nat) : Nat :=
  if now - lastRequestTime < REQUEST_DELAY then
    REQUEST_DELAY - (now - lastRequestTime)
  else 0

/-- Dispatch timestamp of a rate-limited request issued at clock `now`:
`now` plus the imposed wait.  This is also the value recorded into
`lastRequestTime` at dispatch. -/
def rlDispatchTime (lastRequestTime now : Nat) : Nat :=
  now + rlWaitTime lastRequestTime now

/-- Mutable static state of `FirecrawlService` relevant to coverage
lookup: the stored credential, the coverage cache and the rate
limiter's last-dispatch timestamp. -/
structure ServiceState where
  apiKey : Option String
  cache : List (String × Coverage)
  lastRequestTime : Nat
deriving DecidableEq

/-- The `data` object of a successful Firecrawl response. -/
structure ScrapeData where
  content : String
  markdown : Option String
  html : Option String
deriving DecidableEq

/-- Oracle for one round-trip to the scraping backend: a returned error
response, a returned success response (whose `data` may be absent), or
a thrown exception (`some msg` when it is an `Error` with a message). -/
inductive FcOracle
  | respErr (msg : String)
  | respOk (data : Option ScrapeData)
  | thrown (msg : Option String)
deriving DecidableEq

/-- The `{ success, error?, coverage? }` result object returned by
`scrapeOpenFiberCoverage`. -/
structure CoverageResult where
  success : Bool
  error : Option String
  coverage : Option Coverage
deriving DecidableEq

/-- One step of the coverage service: the returned result object, the
service state afterwards, how many backend requests were dispatched and
how long the rate limiter slept. -/
structure StepOut where
  result : CoverageResult
  state : ServiceState
  networkCalls : Nat
  delayMs : Nat
deriving DecidableEq

/-- Error message of the missing-credential early return. -/
def msgNoApiKey : String := "API key not found"

/-- Error message of the failed-validation early return. -/
def msgInvalidAddress : String := "Invalid address format"

/-- Rate-limit message for a `429` in an error response. -/
def msgRateLimitResponse : String :=
  "Rate limit exceeded - please wait before trying again"

/-- Rate-limit message for a `429` in a thrown error. -/
def msgRateLimitThrown : String :=
  "Rate limit exceeded - too many requests. Please wait before searching again."

/-- Error message when the response carries no data or empty content. -/
def msgNoContent : String := "No content received from scraping"

/-- Fallback message when the error response's message is empty. -/
def msgScrapeFallback : String := "Failed to scrape Open Fiber"

/-- Fallback message when a non-`Error` value is thrown. -/
def msgConnectFallback : String := "Failed to connect to Firecrawl API"

/-- `FirecrawlService.scrapeOpenFiberCoverage(city, address)`: credential
check, address validation, cache check, then the rate-limited scrape
whose outcome is supplied by the oracle, with `429` discrimination,
empty-content detection, substring classification and cache write. -/
def scrapeOpenFiberCoverage (st : ServiceState) (city address : String)
    (now : Nat) (oracle : FcOracle) : StepOut :=
  match st.apiKey with
  | none => ⟨⟨false, some msgNoApiKey, none⟩, st, 0, 0⟩
  | some _ =>
    if validateAddress address city then
      let cacheKey := mkCacheKey address city
      match cacheLookup st.cache cacheKey with
      | some cov => ⟨⟨true, none, some cov⟩, st, 0, 0⟩
      | none =>
        let wait := rlWaitTime st.lastRequestTime now
        let st1 : ServiceState := { st with lastRequestTime := now + wait }
        match oracle with
        | FcOracle.respErr msg =>
          if strIncludes msg "429" then
            ⟨⟨false, some msgRateLimitResponse, none⟩, st1, 1, wait⟩
          else
            ⟨⟨false, some (if msg = "" then msgScrapeFallback else msg), none⟩, st1, 1, wait⟩
        | FcOracle.respOk none =>
          ⟨⟨false, some msgNoContent, none⟩, st1, 1, wait⟩
        | FcOracle.respOk (some data) =>
          if data.content = "" then
            ⟨⟨false, some msgNoContent, none⟩, st1, 1, wait⟩
          else
            let allContent :=
              combinedText data.content (data.markdown.getD "") (data.html.getD "")
            let coverage := classifyCoverage allContent
            ⟨⟨true, none, some coverage⟩,
             { st1 with cache := (cacheKey, coverage) :: st1.cache }, 1, wait⟩
        | FcOracle.thrown (some m) =>
          if strIncludes m "429" then
            ⟨⟨false, some msgRateLimitThrown, none⟩, st1, 1, wait⟩
          else
            ⟨⟨false, some m, none⟩, st1, 1, wait⟩
        | FcOracle.thrown none =>
          ⟨⟨false, some msgConnectFallback, none⟩, st1, 1, wait⟩
    else ⟨⟨false, some msgInvalidAddress, none⟩, st, 0, 0⟩

/-- Coverage annotation values a business record can carry, including
the transient checking status and the error status. -/
inductive FiberStatus
  | FTTH
  | FWA
  | NonCoperto
  | Checking
  | ErroreVerifica
deriving DecidableEq

/-- The optional tag mapping of a `BusinessResult`. -/
structure BusinessTags where
  name : Option String := none
  phone : Option String := none
  contactPhone : Option String := none
  addrStreet : Option String := none
  addrHousenumber : Option String := none
  addrPostcode : Option String := none
  addrCity : Option String := none
  amenity : Option String := none
  shop : Option String := none
  tourism : Option String := none
  office : Option String := none
  landuse : Option String := none
deriving DecidableEq

/-- A business record parsed from the map-data response, optionally
annotated with a coverage status. -/
structure Business where
  id : Nat
  lat : Rat
  lon : Rat
  tags : BusinessTags
  fiberCoverage : Option FiberStatus := none
  coverageError : Option String := none
deriving DecidableEq

/-- `formatAddress`: interpolate street, house number, postal code and
city into `` `${street} ${number}, ${postcode} ${city}` ``, squash
whitespace runs to single spaces, trim. -/
def formatAddress (tags : BusinessTags) : String :=
  let street := tags.addrStreet.getD ""
  let number := tags.addrHousenumber.getD ""
  let postcode := tags.addrPostcode.getD ""
  let city := tags.addrCity.getD ""
  strTrim (String.mk (squashRuns Char.isWhitespace false
    (street ++ " " ++ number ++ ", " ++ postcode ++ " " ++ city).data))

/-- The three category checkboxes driving the map-data query. -/
structure CategoryFilter where
  ricettive : Bool
  commerciali : Bool
  industriali : Bool
deriving DecidableEq

/-- A toast notification: title, description, destructive variant flag. -/
structure Toast where
  title : String
  description : String
  destructive : Bool
deriving DecidableEq

/-- UI state touched by the search flow: the result list, the loading
flag and the stack of issued notifications (most recent first). -/
structure UiState where
  results : List Business
  loading : Bool
  toasts : List Toast
deriving DecidableEq

/-- Overpass sub-query clauses built from the enabled categories, in
declaration order: lodging, then commercial, then industrial. -/
def buildQueryParts (cats : CategoryFilter) (r lat lon : String) : List String :=
  let around := "(around:" ++ r ++ "," ++ lat ++ "," ++ lon ++ ");"
  (if cats.ricettive then
    ["node[\"tourism\"=\"hotel\"]" ++ around,
     "node[\"tourism\"=\"guest_house\"]" ++ around,
     "node[\"tourism\"=\"hostel\"]" ++ around]
   else []) ++
  (if cats.commerciali then
    ["node[\"amenity\"=\"restaurant\"]" ++ around,
     "node[\"shop\"]" ++ around,
     "node[\"office\"]" ++ around]
   else []) ++
  (if cats.industriali then
    ["node[\"landuse\"=\"industrial\"]" ++ around]
   else [])

/-- Outcome of the map-data round trip: a non-OK HTTP status (which the
code turns into a thrown, caught error) or a parsed JSON body whose
`elements` array may be absent. -/
inductive FetchOutcome
  | httpFail
  | okJson (elements : Option (List Business))
deriving DecidableEq

/-- Toast shown when no category is selected. -/
def toastNoCategory : Toast :=
  ⟨"Nessuna categoria selezionata", "Seleziona almeno una categoria di attività", true⟩

/-- Toast shown when the map-data fetch fails. -/
def toastFetchError : Toast :=
  ⟨"Errore", "Impossibile caricare i dati. Riprova più tardi.", true⟩

/-- Toast shown when the search completes with `n` results. -/
def toastSearchDone (n : Nat) : Toast :=
  ⟨"Ricerca completata", "Trovate " ++ toString n ++ " attività", false⟩

/-- `fetchOSMData`: build the query, bail out with a toast when no
category is enabled, otherwise dispatch and either report the error
(results untouched) or store the parsed element list. -/
def fetchOSMData (st : UiState) (cats : CategoryFilter) (r lat lon : String)
    (resp : FetchOutcome) : UiState :=
  let qp := buildQueryParts cats r lat lon
  if qp.isEmpty then
    { st with toasts := toastNoCategory :: st.toasts, loading := false }
  else
    match resp with
    | FetchOutcome.httpFail =>
      { st with toasts := toastFetchError :: st.toasts, loading := false }
    | FetchOutcome.okJson elements =>
      let businesses := elements.getD []
      { st with results := businesses, loading := false,
                toasts := toastSearchDone businesses.length :: st.toasts }

/-- The skip condition of the enrichment loop: formatted address falsy
or shorter than 3 after trimming, or city tag absent or empty. -/
def skipsBusiness (b : Business) : Bool :=
  let address := formatAddress b.tags
  let city := b.tags.addrCity.getD ""
  address = "" || (strTrim address).length < 3 || city = ""

/-- Observable outcome of one enrichment run: the final business list,
the positions at which the coverage lookup was invoked (in dispatch
order) and every write to a `fiberCoverage` field in program order
(`none` records a deletion of the field). -/
structure EnrichOut where
  results : List Business
  calls : List Nat
  assigns : List (Nat × Option FiberStatus)
deriving DecidableEq

/-- The loop body of `checkFiberCoverageForResults`, processing the
remaining businesses starting at loop index `i`; `os` is the oracle
giving the lookup outcome for each index (`none` models a lookup that
returned `null`, upon which the field is deleted). -/
def runEnrichmentFrom (os : Nat → Option FiberStatus) : Nat → List Business → EnrichOut
  | _, [] => ⟨[], [], []⟩
  | i, b :: bs =>
    if skipsBusiness b then
      let rest := runEnrichmentFrom os (i + 1) bs
      ⟨b :: rest.results, rest.calls, rest.assigns⟩
    else
      let r := os i
      let b' := { b with fiberCoverage := r }
      let rest := runEnrichmentFrom os (i + 1) bs
      ⟨b' :: rest.results, i :: rest.calls,
       (i, some FiberStatus.Checking) :: (i, r) :: rest.assigns⟩

/-- `checkFiberCoverageForResults`: run the enrichment loop over the
whole list from index 0. -/
def checkFiberCoverageForResults (os : Nat → Option FiberStatus)
    (businesses : List Business) : EnrichOut :=
  runEnrichmentFrom os 0 businesses

/-- `calculateRadioCoverage`: the parsed antenna height (`none` for a
non-numeric input) is mapped to 0 when invalid, otherwise to
`3.57 * sqrt(height)` kilometres expressed in metres. -/
noncomputable def calculateRadioCoverage (h : Option Rat) : Real :=
  match h with
  | none => 0
  | some x => if x ≤ 0 then 0 else 3.57 * Real.sqrt (x : Real) * 1000

/-! ### Helper lemmas -/

/-- Every character of a squashed run list is a space or came from the
original list. -/
theorem squashRuns_mem (p : Char → Bool) (l : List Char) :
    ∀ (b : Bool), ∀ c ∈ squashRuns p b l, c = ' ' ∨ c ∈ l := by
  induction l with
  | nil => intro b c hc; simp [squashRuns] at hc
  | cons x xs ih =>
    intro b c hc
    unfold squashRuns at hc
    by_cases hx : p x
    · simp only [hx, if_true] at hc
      cases b with
      | true =>
        simp only [if_true] at hc
        rcases ih true c hc with h | h
        · exact Or.inl h
        · exact Or.inr (List.mem_cons_of_mem _ h)
      | false =>
        simp only [Bool.false_eq_true, if_false] at hc
        rcases List.mem_cons.mp hc with h | h
        · exact Or.inl h
        · rcases ih true c h with h' | h'
          · exact Or.inl h'
          · exact Or.inr (List.mem_cons_of_mem _ h')
    · simp only [hx, if_false] at hc
      rcases List.mem_cons.mp hc with h | h
      · exact Or.inr (h ▸ List.mem_cons_self x xs)
      · rcases ih false c h with h' | h'
        · exact Or.inl h'
        · exact Or.inr (List.mem_cons_of_mem _ h')

/-- Trimming only removes characters. -/
theorem trimChars_subset (l : List Char) : ∀ c ∈ trimChars l, c ∈ l := by
  intro c hc
  unfold trimChars at hc
  rw [List.mem_reverse] at hc
  have h1 := (List.dropWhile_sublist _).subset hc
  rw [List.mem_reverse] at h1
  exact (List.dropWhile_sublist _).subset h1

/-- Validation fails when the trimmed address is shorter than 3, the
address has no alphanumeric character, or the trimmed city is shorter
than 2. -/
theorem validateAddress_false_of (address city : String)
    (h : (strTrim address).length < 3
        ∨ address.data.all (fun c => !c.isAlphanum) = true
        ∨ (strTrim city).length < 2) :
    validateAddress address city = false := by
  unfold validateAddress
  split_ifs with h1 h2 h3 h4
  · rfl
  · rfl
  · rfl
  · rfl
  · exfalso
    rcases h with h | h | h
    · exact h1 (Or.inr h)
    · cases hb : (cleanedAddress address).data.any (fun c => c.isAlphanum) with
      | false => exact h4 hb
      | true =>
        obtain ⟨c, hcmem, hcalnum⟩ := List.any_eq_true.mp hb
        have hmem2 : c ∈ squashRuns commaOrWs false address.data :=
          trimChars_subset _ c hcmem
        rcases squashRuns_mem commaOrWs address.data false c hmem2 with hsp | hsrc
        · rw [hsp] at hcalnum
          exact absurd hcalnum (by decide)
        · have hall := List.all_eq_true.mp h c hsrc
          rw [hcalnum] at hall
          simp at hall
    · exact h2 (Or.inr h)

/-! ### Claim theorems -/

/-- Claim C1: over the combined lowercased text, classification checks
the FTTH group first, then the FWA group, then the explicit not-covered
group, and defaults to `'Non coperto'` when no group matches; a text
containing both "ftth" and "non coperto" classifies as FTTH, and a text
containing none of the known substrings classifies as `'Non coperto'`. -/
theorem claim_c1_classification_priority :
    (∀ content markdown html : String,
      classifyCoverage (combinedText content markdown html) =
        if hasAnyKeyword ftthKeywords (combinedText content markdown html) then Coverage.FTTH
        else if hasAnyKeyword fwaKeywords (combinedText content markdown html) then Coverage.FWA
        else Coverage.NonCoperto)
    ∧ classifyCoverage "risultato: ftth disponibile, area non coperto" = Coverage.FTTH
    ∧ classifyCoverage "nessun risultato utile" = Coverage.NonCoperto := by
  refine ⟨fun content markdown html => ?_, by decide, by decide⟩
  unfold classifyCoverage
  split_ifs <;> rfl

/-- Claim C2 counterexample: on a tag mapping with no address tags,
`formatAddress` returns the string "," rather than the empty string
claimed by the spec. -/
theorem claim_c2_counterexample :
    formatAddress {} = "," ∧ ("," : String) ≠ "" := ⟨by decide, by decide⟩

/-- Claim C2 (amended): `formatAddress` never fails; on a tag mapping
with no address tags it returns ",", and for street "Via Roma", house
number "1", postcode "00100", city "Roma" it returns
"Via Roma 1, 00100 Roma". -/
theorem claim_c2_format_address :
    formatAddress {} = ","
    ∧ formatAddress { addrStreet := some "Via Roma", addrHousenumber := some "1",
                      addrPostcode := some "00100", addrCity := some "Roma" } =
        "Via Roma 1, 00100 Roma" := ⟨by decide, by decide⟩

/-- The dispatch time of a rate-limited request is at least the
recorded last-dispatch timestamp plus the fixed minimum interval. -/
theorem rlDispatchTime_ge (t1 now : Nat) (h : t1 ≤ now) :
    t1 + REQUEST_DELAY ≤ rlDispatchTime t1 now := by
  unfold rlDispatchTime rlWaitTime REQUEST_DELAY
  split_ifs <;> omega

/-- Claim C5: for two requests issued through the rate limiter one
after the other, the second dispatch timestamp is at least 2000 ms
after the first; when less than the minimum interval has elapsed the
limiter suspends for exactly the remaining portion. -/
theorem claim_c5_rate_limiter_spacing (last now1 now2 : Nat)
    (h : rlDispatchTime last now1 ≤ now2) :
    rlDispatchTime last now1 + REQUEST_DELAY ≤
        rlDispatchTime (rlDispatchTime last now1) now2
    ∧ (now2 - rlDispatchTime last now1 < REQUEST_DELAY →
        rlWaitTime (rlDispatchTime last now1) now2 =
          REQUEST_DELAY - (now2 - rlDispatchTime last now1)) := by
  refine ⟨rlDispatchTime_ge _ _ h, fun h2 => ?_⟩
  unfold rlWaitTime
  rw [if_pos h2]

/-- Witness for claim C5 at `last = 0`, first call at clock 100 and the
second issued right at the first's dispatch time 2000. -/
theorem claim_c5_rate_limiter_spacing_witness :
    rlDispatchTime 0 100 + REQUEST_DELAY ≤
        rlDispatchTime (rlDispatchTime 0 100) 2000
    ∧ (2000 - rlDispatchTime 0 100 < REQUEST_DELAY →
        rlWaitTime (rlDispatchTime 0 100) 2000 =
          REQUEST_DELAY - (2000 - rlDispatchTime 0 100)) :=
  claim_c5_rate_limiter_spacing 0 100 2000 (by decide)

/-- Claim C6: when the map-data HTTP response is not successful, the
fetch operation reports the failure through the error toast, leaves the
result list untouched, and clears the loading flag. -/
theorem claim_c6_fetch_failure_frame (st : UiState) (cats : CategoryFilter)
    (r lat lon : String) (h : buildQueryParts cats r lat lon ≠ []) :
    (fetchOSMData st cats r lat lon FetchOutcome.httpFail).results = st.results
    ∧ (fetchOSMData st cats r lat lon FetchOutcome.httpFail).toasts =
        toastFetchError :: st.toasts
    ∧ (fetchOSMData st cats r lat lon FetchOutcome.httpFail).loading = false := by
  have hne : (buildQueryParts cats r lat lon).isEmpty = false := by
    cases h' : buildQueryParts cats r lat lon with
    | nil => exact absurd h' h
    | cons a l => rfl
  refine ⟨?_, ?_, ?_⟩ <;> (unfold fetchOSMData; simp [hne])

/-- Witness for claim C6 with the lodging category enabled and an empty
prior result list. -/
theorem claim_c6_fetch_failure_frame_witness :
    (fetchOSMData ⟨[], true, []⟩ ⟨true, false, false⟩ "100" "41.9" "12.5"
        FetchOutcome.httpFail).results = (⟨[], true, []⟩ : UiState).results
    ∧ (fetchOSMData ⟨[], true, []⟩ ⟨true, false, false⟩ "100" "41.9" "12.5"
        FetchOutcome.httpFail).toasts = toastFetchError :: (⟨[], true, []⟩ : UiState).toasts
    ∧ (fetchOSMData ⟨[], true, []⟩ ⟨true, false, false⟩ "100" "41.9" "12.5"
        FetchOutcome.httpFail).loading = false :=
  claim_c6_fetch_failure_frame ⟨[], true, []⟩ ⟨true, false, false⟩ "100" "41.9" "12.5"
    (by decide)

/-- Claim C9: the radio-range estimator returns 0 for a non-numeric or
non-positive height, returns `3.57 * sqrt(h)` kilometres in metres for
a positive height, and returns exactly 17850 m for h = 25. -/
theorem claim_c9_radio_coverage :
    calculateRadioCoverage none = 0
    ∧ (∀ x : Rat, x ≤ 0 → calculateRadioCoverage (some x) = 0)
    ∧ (∀ x : Rat, 0 < x →
        calculateRadioCoverage (some x) = 3.57 * Real.sqrt (x : Real) * 1000)
    ∧ calculateRadioCoverage (some 25) = 17850 := by
  refine ⟨rfl, fun x hx => ?_, fun x hx => ?_, ?_⟩
  · simp [calculateRadioCoverage, hx]
  · simp [calculateRadioCoverage, not_le.mpr hx]
  · have h25 : ¬ ((25 : Rat) ≤ 0) := by norm_num
    simp only [calculateRadioCoverage, h25, if_false]
    have hc : ((25 : Rat) : Real) = 25 := by norm_num
    rw [hc, show (25 : Real) = 5 ^ 2 by norm_num,
      Real.sqrt_sq (by norm_num : (0 : Real) ≤ 5)]
    norm_num

/-- Witness for claim C9 at the non-positive height -3 and the positive
height 4. -/
theorem claim_c9_radio_coverage_witness :
    calculateRadioCoverage (some (-3)) = 0
    ∧ calculateRadioCoverage (some 4) = 3.57 * Real.sqrt ((4 : Rat) : Real) * 1000 :=
  ⟨claim_c9_radio_coverage.2.1 (-3) (by norm_num),
   claim_c9_radio_coverage.2.2.1 4 (by norm_num)⟩

/-- Claim C4: with a stored credential, a call whose trimmed address is
shorter than 3 characters, or whose address contains no alphanumeric
character, or whose trimmed city is shorter than 2 characters, returns
the invalid-address failure, makes no network call and leaves the
service state unchanged. -/
theorem claim_c4_invalid_address_rejected (st : ServiceState) (k : String)
    (city address : String) (now : Nat) (oracle : FcOracle)
    (hk : st.apiKey = some k)
    (h : (strTrim address).length < 3
        ∨ address.data.all (fun c => !c.isAlphanum) = true
        ∨ (strTrim city).length < 2) :
    scrapeOpenFiberCoverage st city address now oracle =
      ⟨⟨false, some msgInvalidAddress, none⟩, st, 0, 0⟩ := by
  have hv := validateAddress_false_of address city h
  unfold scrapeOpenFiberCoverage
  rw [hk]
  simp [hv]

/-- Witness for claim C4: `classify("Roma", "")`, `classify("", "Via
Roma 1")` and `classify("Roma", ",")` are all rejected with the
invalid-address failure and zero network calls. -/
theorem claim_c4_invalid_address_rejected_witness :
    scrapeOpenFiberCoverage ⟨some "key", [], 0⟩ "Roma" "" 0 (FcOracle.respOk none) =
      ⟨⟨false, some msgInvalidAddress, none⟩, ⟨some "key", [], 0⟩, 0, 0⟩
    ∧ scrapeOpenFiberCoverage ⟨some "key", [], 0⟩ "" "Via Roma 1" 0 (FcOracle.respOk none) =
      ⟨⟨false, some msgInvalidAddress, none⟩, ⟨some "key", [], 0⟩, 0, 0⟩
    ∧ scrapeOpenFiberCoverage ⟨some "key", [], 0⟩ "Roma" "," 0 (FcOracle.respOk none) =
      ⟨⟨false, some msgInvalidAddress, none⟩, ⟨some "key", [], 0⟩, 0, 0⟩ :=
  ⟨claim_c4_invalid_address_rejected _ "key" _ _ _ _ rfl (Or.inl (by decide)),
   claim_c4_invalid_address_rejected _ "key" _ _ _ _ rfl (Or.inr (Or.inr (by decide))),
   claim_c4_invalid_address_rejected _ "key" _ _ _ _ rfl (Or.inl (by decide))⟩

/-- Claim C10: the coverage lookup always returns a result object; when
`success` is true the coverage field carries one of the three coverage
values and no error is set, and when `success` is false an error string
is present and no coverage field is set. -/
theorem claim_c10_result_shape (st : ServiceState) (city address : String)
    (now : Nat) (oracle : FcOracle) :
    ((scrapeOpenFiberCoverage st city address now oracle).result.success = true
      ∧ (scrapeOpenFiberCoverage st city address now oracle).result.error = none
      ∧ ∃ c : Coverage,
          (scrapeOpenFiberCoverage st city address now oracle).result.coverage = some c)
    ∨ ((scrapeOpenFiberCoverage st city address now oracle).result.success = false
      ∧ (scrapeOpenFiberCoverage st city address now oracle).result.coverage = none
      ∧ ∃ e : String,
          (scrapeOpenFiberCoverage st city address now oracle).result.error = some e) := by
  unfold scrapeOpenFiberCoverage
  cases hk : st.apiKey with
  | none => simp
  | some k =>
    by_cases hv : validateAddress address city
    · simp only [hv, if_true]
      cases hcl : cacheLookup st.cache (mkCacheKey address city) with
      | some cov => simp
      | none =>
        cases oracle with
        | respErr msg => by_cases h4 : strIncludes msg "429" <;> simp [h4]
        | respOk data =>
          cases data with
          | none => simp
          | some d => by_cases hco : d.content = "" <;> simp [hco]
        | thrown m =>
          cases m with
          | none => simp
          | some mm => by_cases h4 : strIncludes mm "429" <;> simp [h4]
    · simp [hv]

/-- A failed coverage lookup never writes anything into the cache. -/
theorem scrape_failure_cache_unchanged (st : ServiceState) (city address : String)
    (now : Nat) (oracle : FcOracle)
    (h : (scrapeOpenFiberCoverage st city address now oracle).result.success = false) :
    (scrapeOpenFiberCoverage st city address now oracle).state.cache = st.cache := by
  revert h
  unfold scrapeOpenFiberCoverage
  cases hk : st.apiKey with
  | none => intro h; rfl
  | some k =>
    by_cases hv : validateAddress address city
    · simp only [hv, if_true]
      cases hcl : cacheLookup st.cache (mkCacheKey address city) with
      | some cov => intro h; simp at h
      | none =>
        cases oracle with
        | respErr msg => by_cases h4 : strIncludes msg "429" <;> simp [h4]
        | respOk data =>
          cases data with
          | none => intro h; rfl
          | some d =>
            by_cases hco : d.content = "" <;> simp [hco]
        | thrown m =>
          cases m with
          | none => intro h; rfl
          | some mm => by_cases h4 : strIncludes mm "429" <;> simp [h4]
    · simp [hv]

/-- Claim C7: for a cache-missing valid call, an error response whose
message contains "429" yields the distinct rate-limit outcome, as does
a thrown error containing "429"; any other error response is passed
through (or replaced by the generic fallback when empty), and a
response with missing or empty content yields the no-content failure;
and no failed outcome of any kind is ever written into the cache. -/
theorem claim_c7_failure_discrimination (st : ServiceState) (k : String)
    (city address : String) (now : Nat)
    (hk : st.apiKey = some k)
    (hv : validateAddress address city = true)
    (hm : cacheLookup st.cache (mkCacheKey address city) = none) :
    (∀ msg, strIncludes msg "429" = true →
      (scrapeOpenFiberCoverage st city address now (FcOracle.respErr msg)).result =
        ⟨false, some msgRateLimitResponse, none⟩)
    ∧ (∀ m, strIncludes m "429" = true →
      (scrapeOpenFiberCoverage st city address now (FcOracle.thrown (some m))).result =
        ⟨false, some msgRateLimitThrown, none⟩)
    ∧ (∀ msg, strIncludes msg "429" = false → msg ≠ "" →
      (scrapeOpenFiberCoverage st city address now (FcOracle.respErr msg)).result =
        ⟨false, some msg, none⟩)
    ∧ ((scrapeOpenFiberCoverage st city address now (FcOracle.respOk none)).result =
        ⟨false, some msgNoContent, none⟩)
    ∧ (∀ md html, (scrapeOpenFiberCoverage st city address now
        (FcOracle.respOk (some ⟨"", md, html⟩))).result =
        ⟨false, some msgNoContent, none⟩)
    ∧ (∀ (st' : ServiceState) (city' address' : String) (now' : Nat) (oracle' : FcOracle),
        (scrapeOpenFiberCoverage st' city' address' now' oracle').result.success = false →
        (scrapeOpenFiberCoverage st' city' address' now' oracle').state.cache = st'.cache) := by
  refine ⟨?_, ?_, ?_, ?_, ?_, scrape_failure_cache_unchanged⟩
  · intro msg h4
    unfold scrapeOpenFiberCoverage
    rw [hk]
    simp [hv, hm, h4]
  · intro m h4
    unfold scrapeOpenFiberCoverage
    rw [hk]
    simp [hv, hm, h4]
  · intro msg h4 hne
    unfold scrapeOpenFiberCoverage
    rw [hk]
    simp [hv, hm, h4, hne]
  · unfold scrapeOpenFiberCoverage
    rw [hk]
    simp [hv, hm]
  · intro md html
    unfold scrapeOpenFiberCoverage
    rw [hk]
    simp [hv, hm]

/-- Witness for claim C7: with an empty cache and the valid call
("Roma", "Via Roma 1"), an error response "HTTP 429" produces the
distinct rate-limit message. -/
theorem claim_c7_failure_discrimination_witness :
    (scrapeOpenFiberCoverage ⟨some "key", [], 0⟩ "Roma" "Via Roma 1" 0
        (FcOracle.respErr "HTTP 429")).result =
      ⟨false, some msgRateLimitResponse, none⟩ :=
  (claim_c7_failure_discrimination ⟨some "key", [], 0⟩ "key" "Roma" "Via Roma 1" 0
    rfl (by decide) rfl).1 "HTTP 429" (by decide)

/-- Characterisation of a successful coverage lookup: a credential was
present, validation passed, the result carries a coverage value with no
error, the credential is unchanged, and the returned state's cache
resolves the call's composite key to exactly that coverage value (the
classification is written into the cache before being returned). -/
theorem scrape_success_char (st : ServiceState) (city address : String)
    (now : Nat) (oracle : FcOracle)
    (hs : (scrapeOpenFiberCoverage st city address now oracle).result.success = true) :
    ∃ k cov, st.apiKey = some k
      ∧ validateAddress address city = true
      ∧ (scrapeOpenFiberCoverage st city address now oracle).result =
          ⟨true, none, some cov⟩
      ∧ (scrapeOpenFiberCoverage st city address now oracle).state.apiKey = some k
      ∧ cacheLookup (scrapeOpenFiberCoverage st city address now oracle).state.cache
          (mkCacheKey address city) = some cov := by
  revert hs
  unfold scrapeOpenFiberCoverage
  cases hk : st.apiKey with
  | none => intro hs; simp at hs
  | some k =>
    by_cases hv : validateAddress address city
    · simp only [hv, if_true]
      cases hcl : cacheLookup st.cache (mkCacheKey address city) with
      | some cov =>
        intro hs
        refine ⟨k, cov, rfl, trivial, ?_, ?_, ?_⟩ <;> simp [hcl, hk]
      | none =>
        cases oracle with
        | respErr msg =>
          by_cases h4 : strIncludes msg "429" <;> simp [h4]
        | respOk data =>
          cases data with
          | none => intro hs; simp at hs
          | some d =>
            by_cases hco : d.content = ""
            · simp [hco]
            · simp only [hco, if_false]
              intro hs
              refine ⟨k, _, rfl, trivial, rfl, rfl, ?_⟩
              unfold cacheLookup
              rw [if_pos rfl]
        | thrown m =>
          cases m with
          | none => intro hs; simp at hs
          | some mm => by_cases h4 : strIncludes mm "429" <;> simp [h4]
    · simp [hv]

/-- Claim C3: after one successful classification, a later classify
call whose trimmed composite key is the same (and which passes
validation) returns the same successful result from the cache, leaves
the service state unchanged, makes no network call and consumes no
rate-limit delay; moreover the successful classification is present in
the cache under the call's composite key. -/
theorem claim_c3_cache_idempotent (st : ServiceState) (city address : String)
    (now : Nat) (oracle : FcOracle)
    (city2 address2 : String) (now2 : Nat) (oracle2 : FcOracle)
    (hs : (scrapeOpenFiberCoverage st city address now oracle).result.success = true)
    (hkey : mkCacheKey address2 city2 = mkCacheKey address city)
    (hv : validateAddress address2 city2 = true) :
    scrapeOpenFiberCoverage (scrapeOpenFiberCoverage st city address now oracle).state
        city2 address2 now2 oracle2 =
      ⟨(scrapeOpenFiberCoverage st city address now oracle).result,
       (scrapeOpenFiberCoverage st city address now oracle).state, 0, 0⟩
    ∧ cacheLookup (scrapeOpenFiberCoverage st city address now oracle).state.cache
        (mkCacheKey address city) =
      (scrapeOpenFiberCoverage st city address now oracle).result.coverage := by
  obtain ⟨k, cov, hk, hv1, hr, hk2, hl⟩ := scrape_success_char st city address now oracle hs
  generalize hout : scrapeOpenFiberCoverage st city address now oracle = out at hr hk2 hl ⊢
  refine ⟨?_, by rw [hl, hr]⟩
  unfold scrapeOpenFiberCoverage
  rw [hk2]
  simp only [hv, if_true]
  rw [hkey, hl, hr]

/-- Witness for claim C3: a first successful lookup for ("Roma",
"Via Roma 1") against a page containing "ftth", then a second call for
the same key that hits the cache even though its oracle would fail. -/
theorem claim_c3_cache_idempotent_witness :
    scrapeOpenFiberCoverage
        (scrapeOpenFiberCoverage ⟨some "key", [], 0⟩ "Roma" "Via Roma 1" 0
          (FcOracle.respOk (some ⟨"ftth", none, none⟩))).state
        "Roma" "Via Roma 1" 5000 (FcOracle.respErr "boom") =
      ⟨(scrapeOpenFiberCoverage ⟨some "key", [], 0⟩ "Roma" "Via Roma 1" 0
          (FcOracle.respOk (some ⟨"ftth", none, none⟩))).result,
       (scrapeOpenFiberCoverage ⟨some "key", [], 0⟩ "Roma" "Via Roma 1" 0
          (FcOracle.respOk (some ⟨"ftth", none, none⟩))).state, 0, 0⟩
    ∧ cacheLookup
        (scrapeOpenFiberCoverage ⟨some "key", [], 0⟩ "Roma" "Via Roma 1" 0
          (FcOracle.respOk (some ⟨"ftth", none, none⟩))).state.cache
        (mkCacheKey "Via Roma 1" "Roma") =
      (scrapeOpenFiberCoverage ⟨some "key", [], 0⟩ "Roma" "Via Roma 1" 0
          (FcOracle.respOk (some ⟨"ftth", none, none⟩))).result.coverage :=
  claim_c3_cache_idempotent ⟨some "key", [], 0⟩ "Roma" "Via Roma 1" 0
    (FcOracle.respOk (some ⟨"ftth", none, none⟩)) "Roma" "Via Roma 1" 5000
    (FcOracle.respErr "boom") (by decide) rfl (by decide)

/-- Every index recorded by the enrichment loop started at `k` is at
least `k`, both among the lookup invocations and the status writes. -/
theorem runEnrichmentFrom_indices_ge (os : Nat → Option FiberStatus)
    (bs : List Business) :
    ∀ k : Nat, (∀ j ∈ (runEnrichmentFrom os k bs).calls, k ≤ j)
      ∧ (∀ p ∈ (runEnrichmentFrom os k bs).assigns, k ≤ p.1) := by
  induction bs with
  | nil => intro k; simp [runEnrichmentFrom]
  | cons b bs ih =>
    intro k
    unfold runEnrichmentFrom
    by_cases hb : skipsBusiness b
    · simp only [hb, if_true]
      constructor
      · intro j hj
        have := (ih (k + 1)).1 j hj
        omega
      · intro p hp
        have := (ih (k + 1)).2 p hp
        omega
    · simp only [hb, Bool.false_eq_true, if_false]
      constructor
      · intro j hj
        rcases List.mem_cons.mp hj with h | h
        · omega
        · have := (ih (k + 1)).1 j h
          omega
      · intro p hp
        rcases List.mem_cons.mp hp with h | h
        · rw [h]
        · rcases List.mem_cons.mp h with h' | h'
          · rw [h']
          · have := (ih (k + 1)).2 p h'
            omega

/-- The lookup invocations of the enrichment loop are recorded in
strictly increasing index order. -/
theorem runEnrichmentFrom_calls_sorted (os : Nat → Option FiberStatus)
    (bs : List Business) :
    ∀ k : Nat, ((runEnrichmentFrom os k bs).calls).Pairwise (fun a b => a < b) := by
  induction bs with
  | nil => intro k; simp [runEnrichmentFrom]
  | cons b bs ih =>
    intro k
    unfold runEnrichmentFrom
    by_cases hb : skipsBusiness b
    · simp only [hb, if_true]
      exact ih (k + 1)
    · simp only [hb, Bool.false_eq_true, if_false]
      refine List.Pairwise.cons ?_ (ih (k + 1))
      intro j hj
      have := (runEnrichmentFrom_indices_ge os bs (k + 1)).1 j hj
      omega

/-- A business meeting the skip condition passes through the enrichment
loop untouched: same record in the output, no lookup invocation and no
status write at its index. -/
theorem runEnrichmentFrom_skip (os : Nat → Option FiberStatus) (bs : List Business) :
    ∀ (k i : Nat) (b : Business), bs[i]? = some b → skipsBusiness b = true →
      (runEnrichmentFrom os k bs).results[i]? = some b
      ∧ (k + i) ∉ (runEnrichmentFrom os k bs).calls
      ∧ ∀ p ∈ (runEnrichmentFrom os k bs).assigns, p.1 ≠ k + i := by
  induction bs with
  | nil => intro k i b hb; simp at hb
  | cons c cs ih =>
    intro k i b hb hskip
    cases i with
    | zero =>
      rw [List.getElem?_cons_zero] at hb
      obtain rfl : c = b := by injection hb
      unfold runEnrichmentFrom
      simp only [hskip, if_true]
      refine ⟨by simp, ?_, ?_⟩
      · intro hmem
        have := (runEnrichmentFrom_indices_ge os cs (k + 1)).1 _ hmem
        omega
      · intro p hp
        have := (runEnrichmentFrom_indices_ge os cs (k + 1)).2 p hp
        omega
    | succ n =>
      rw [List.getElem?_cons_succ] at hb
      have hih := ih (k + 1) n b hb hskip
      unfold runEnrichmentFrom
      by_cases hc : skipsBusiness c
      · simp only [hc, if_true]
        refine ⟨?_, ?_, ?_⟩
        · rw [List.getElem?_cons_succ]
          exact hih.1
        · intro hmem
          have h1 := hih.2.1
          have : k + (n + 1) = (k + 1) + n := by omega
          rw [this] at hmem
          exact h1 hmem
        · intro p hp
          have := hih.2.2 p hp
          omega
      · simp only [hc, Bool.false_eq_true, if_false]
        refine ⟨?_, ?_, ?_⟩
        · rw [List.getElem?_cons_succ]
          exact hih.1
        · intro hmem
          rcases List.mem_cons.mp hmem with h | h
          · omega
          · have h1 := hih.2.1
            have heq : k + (n + 1) = (k + 1) + n := by omega
            rw [heq] at h
            exact h1 h
        · intro p hp
          rcases List.mem_cons.mp hp with h | h
          · rw [h]; omega
          · rcases List.mem_cons.mp h with h' | h'
            · rw [h']; omega
            · have := hih.2.2 p h'
              omega

/-- Claim C8: the enrichment driver processes businesses in list order
(the lookup indices are strictly increasing), and a business whose
formatted address or city is empty or too short passes through
unchanged: no coverage lookup is invoked for it and no coverage
annotation — not even the transient checking status — is written at
its position. -/
theorem claim_c8_driver_skips_invalid (os : Nat → Option FiberStatus)
    (bs : List Business) (i : Nat) (b : Business)
    (hb : bs[i]? = some b) (hskip : skipsBusiness b = true) :
    (checkFiberCoverageForResults os bs).results[i]? = some b
    ∧ i ∉ (checkFiberCoverageForResults os bs).calls
    ∧ (∀ p ∈ (checkFiberCoverageForResults os bs).assigns, p.1 ≠ i)
    ∧ ((checkFiberCoverageForResults os bs).calls).Pairwise (fun a b => a < b) := by
  have h := runEnrichmentFrom_skip os bs 0 i b hb hskip
  have hs := runEnrichmentFrom_calls_sorted os bs 0
  unfold checkFiberCoverageForResults
  rw [Nat.zero_add] at h
  exact ⟨h.1, h.2.1, h.2.2, hs⟩

/-- Witness for claim C8: a single business with an empty tag mapping
(formatted address ",") is skipped by the driver. -/
theorem claim_c8_driver_skips_invalid_witness :
    (checkFiberCoverageForResults (fun _ => none)
        [⟨1, 0, 0, {}, none, none⟩]).results[0]? = some ⟨1, 0, 0, {}, none, none⟩
    ∧ 0 ∉ (checkFiberCoverageForResults (fun _ => none)
        [⟨1, 0, 0, {}, none, none⟩]).calls
    ∧ (∀ p ∈ (checkFiberCoverageForResults (fun _ => none)
        [⟨1, 0, 0, {}, none, none⟩]).assigns, p.1 ≠ 0)
    ∧ ((checkFiberCoverageForResults (fun _ => none)
        [⟨1, 0, 0, {}, none, none⟩]).calls).Pairwise (fun a b => a < b) :=
  claim_c8_driver_skips_invalid (fun _ => none) [⟨1, 0, 0, {}, none, none⟩] 0
    ⟨1, 0, 0, {}, none, none⟩ (by decide) (by decide)
